import Mathlib

/-!
# goStar: identifier codec, programming protocol and per-device loop

A shallow embedding of `star/usb.go` and of the per-device loop of `goStar.go`.

* A Go `string` is a sequence of bytes; it is embedded as `List Nat`
  (each element one byte).  `len` is the number of bytes, `for _, r := range s`
  walks the runes that the Go runtime decodes from the bytes.
* The USB host (package `gousb`) is an external collaborator.  It is embedded
  as a record `Host` that fixes what each host call answers; the code under
  study is a function from that record to the error it returns together with
  the sequence of host calls it makes, in order.
* `math/rand` is embedded as a stream of raw values; `rand.Intn n` takes the
  next raw value modulo `n`, so that every sequence of indices in `[0, n)` is
  the outcome of some stream.
-/

namespace GoStar

/-- A Go string: its bytes, in order. -/
abbrev GoString := List Nat

/-- The bytes of an ASCII literal of the source. -/
def lit (s : String) : GoString := s.toList.map Char.toNat

/-! ## Constants of `star/usb.go` -/

/-- The constant `idChars` (the digits occur twice). -/
def idChars : GoString := lit "0123456789ABCDEFGHIJKLMNOPQRSTUVWXYZ0123456789"

/-- The constant `idMaxLength`. -/
def idMaxLength : Nat := 8

/-- The constant `starFullCut`, bytes `1B 64 32`. -/
def starFullCut : GoString := [0x1B, 0x64, 0x32]

/-- The constant `starBR`, bytes `1B 61 01`. -/
def starBR : GoString := [0x1B, 0x61, 0x01]

/-! ## Go runtime: ranging over a string -/

/-- The value `runeError` (U+FFFD) of the Go runtime. -/
def runeError : Nat := 0xFFFD

/-- The runtime function `decoderune` applied at the start of `s`, for a first
byte that is not below `0x80`: the decoded rune and the number of bytes it
takes.  A malformed, overlong, surrogate or out-of-range sequence gives
`runeError` and takes one byte. -/
def decoderune (s : GoString) : Nat × Nat :=
  match s with
  | [] => (runeError, 1)
  | s0 :: t =>
    if 0xC0 ≤ s0 ∧ s0 < 0xE0 then
      match t with
      | s1 :: _ =>
        if 0x80 ≤ s1 ∧ s1 ≤ 0xBF then
          let r := ((s0 &&& 0x1F) <<< 6) ||| (s1 &&& 0x3F)
          if 0x7F < r then (r, 2) else (runeError, 1)
        else (runeError, 1)
      | _ => (runeError, 1)
    else if 0xE0 ≤ s0 ∧ s0 < 0xF0 then
      match t with
      | s1 :: s2 :: _ =>
        if (0x80 ≤ s1 ∧ s1 ≤ 0xBF) ∧ (0x80 ≤ s2 ∧ s2 ≤ 0xBF) then
          let r := ((s0 &&& 0x0F) <<< 12) ||| ((s1 &&& 0x3F) <<< 6) ||| (s2 &&& 0x3F)
          if 0x7FF < r ∧ ¬ (0xD800 ≤ r ∧ r ≤ 0xDFFF) then (r, 3) else (runeError, 1)
        else (runeError, 1)
      | _ => (runeError, 1)
    else if 0xF0 ≤ s0 ∧ s0 < 0xF8 then
      match t with
      | s1 :: s2 :: s3 :: _ =>
        if (0x80 ≤ s1 ∧ s1 ≤ 0xBF) ∧ (0x80 ≤ s2 ∧ s2 ≤ 0xBF) ∧ (0x80 ≤ s3 ∧ s3 ≤ 0xBF) then
          let r := ((s0 &&& 0x07) <<< 18) ||| ((s1 &&& 0x3F) <<< 12) |||
            ((s2 &&& 0x3F) <<< 6) ||| (s3 &&& 0x3F)
          if 0xFFFF < r ∧ r ≤ 0x10FFFF then (r, 4) else (runeError, 1)
        else (runeError, 1)
      | _ => (runeError, 1)
    else (runeError, 1)

/-- One step of `for _, r := range s`: a first byte below `0x80` is the rune
itself and takes one byte, anything else goes through `decoderune`. -/
def nextRune (s : GoString) : Nat × Nat :=
  match s with
  | [] => (runeError, 1)
  | s0 :: t => if s0 < 0x80 then (s0, 1) else decoderune (s0 :: t)

/-- The runes of `s` from a position at which `skip` bytes still belong to the
rune decoded last. -/
def rangeFrom : Nat → GoString → List Nat
  | _, [] => []
  | 0, s0 :: t => (nextRune (s0 :: t)).1 :: rangeFrom ((nextRune (s0 :: t)).2 - 1) t
  | skip + 1, _ :: t => rangeFrom skip t

/-- The runes that `for _, r := range s` yields, in order. -/
def rangeRunes (s : GoString) : List Nat := rangeFrom 0 s

/-- The conversion `string(b)` of a byte: the UTF-8 encoding of the code point
`b`. -/
def stringOfByte (b : Nat) : GoString :=
  if b < 0x80 then [b] else [0xC0 ||| (b >>> 6), 0x80 ||| (b &&& 0x3F)]

/-! ## `math/rand` -/

/-- The random source: the raw values that successive draws consume. -/
abbrev RandSource := Nat → Nat

/-- The call `rand.Intn(n)`: a value in `[0, n)` and the source that is left. -/
def Intn (rng : RandSource) (n : Nat) : Nat × RandSource :=
  (rng 0 % n, fun k => rng (k + 1))

/-! ## Identifier codec -/

/-- The loop of `MakeRandomID` with `n` iterations left: each iteration appends
`string(idChars[rand.Intn(idSourceLen)])` to `newID`. -/
def makeRandomLoop : Nat → GoString → RandSource → GoString × RandSource
  | 0, newID, rng => (newID, rng)
  | n + 1, newID, rng =>
    let idSourceLen := idChars.length
    let d := Intn rng idSourceLen
    makeRandomLoop n (newID ++ stringOfByte (idChars.getD d.1 0)) d.2

/-- The function `MakeRandomID`.  Reseeding is part of the random source: the
stream stands for the values drawn after the seed was installed. -/
def MakeRandomID (rng : RandSource) : GoString × RandSource :=
  makeRandomLoop idMaxLength [] rng

/-- The rune test of `validateUsbID`: `r < 48 || (r > 57 && r < 65) || r > 90`. -/
def badRune (r : Nat) : Bool := r < 48 || (r > 57 && r < 65) || r > 90

/-- The `for _, r := range *usbID` loop of `validateUsbID`: `false` at the
first rune that fails the test, `true` when the runes are exhausted. -/
def validateLoop : List Nat → Bool
  | [] => true
  | r :: rs => if badRune r then false else validateLoop rs

/-- The function `validateUsbID`: the boolean it returns and the string that
`*usbID` holds afterwards. -/
def validateUsbID (usbID : GoString) : Bool × GoString :=
  let l := usbID.length
  if l = 0 then (true, lit "????????")
  else if l > 8 then (false, usbID)
  else (validateLoop (rangeRunes usbID), usbID)

/-! ## The USB host -/

/-- The direction of an endpoint (`gousb.EndpointDirectionIn` or out). -/
inductive EndpointDirection where
  | In
  | Out
  deriving DecidableEq, Repr

/-- An endpoint descriptor: the fields the code reads. -/
structure EndpointDesc where
  Number : Int
  Direction : EndpointDirection
  deriving DecidableEq, Repr

/-- A claimed interface: `Endpoints` is `intf.Setting.Endpoints` in the order
the `range` statement visits it, `outEndpointOk n` tells whether
`intf.OutEndpoint(n)` succeeds, and `writeOk k` whether the `k`-th call
(counted from 0) of `Write` on the out endpoint succeeds. -/
structure UsbInterface where
  Endpoints : List EndpointDesc
  outEndpointOk : Int → Bool
  writeOk : Nat → Bool

/-- An attached device: the descriptor fields the code filters on, and the
interface that `DefaultInterface()` gives (`none` when the claim fails). -/
structure UsbDevice where
  Address : Int
  Bus : Int
  Port : Int
  defaultInterface : Option UsbInterface

/-- The host: the attached devices that `OpenDevices` offers to the filter, and
whether `OpenDevices` reports an error. -/
structure Host where
  devices : List UsbDevice
  openErr : Bool

/-- The call `ctx.OpenDevices(filter)`: the devices that pass the filter, and
the error flag. -/
def OpenDevices (h : Host) (filter : UsbDevice → Bool) : List UsbDevice × Bool :=
  (h.devices.filter filter, h.openErr)

/-- A call made on the host, or a pause, in the order the code makes them. -/
inductive Event where
  | openDevices (address bus port : Int)
  | defaultInterface
  | outEndpoint (number : Int)
  | write (number : Int) (data : GoString) (ok : Bool)
  | sleep (seconds : Nat)
  | intfClose
  | done
  | devClose
  | ctxClose
  deriving DecidableEq, Repr

/-- The errors the code builds with `fmt.Errorf`, one constructor per message. -/
inductive Err where
  | usbError
  | goneAway (address bus port : Int)
  | multipleDevices (lenDevs : Nat) (address bus port : Int)
  | defaultInterfaceFailed
  | outEndpointFailed (out : Int)
  | alreadySet (usbID : GoString)
  | invalidUsbID (usbID : GoString)
  deriving DecidableEq, Repr

/-- What a call returns: the error (`none` for `nil`) and the host calls made. -/
structure Result where
  err : Option Err
  events : List Event
  deriving DecidableEq, Repr

/-- The data of the `Write` calls of a trace, in order. -/
def writesOf : List Event → List GoString
  | [] => []
  | Event.write _ data _ :: es => data :: writesOf es
  | _ :: es => writesOf es

/-- The outcomes of the `Write` calls of a trace, in order. -/
def writeResults : List Event → List Bool
  | [] => []
  | Event.write _ _ ok :: es => ok :: writeResults es
  | _ :: es => writeResults es

/-! ## Programming protocol -/

/-- The loop of `getInOutEndpoints`, from the current values of `in` and `out`. -/
def endpointLoop : List EndpointDesc → Int × Int → Int × Int
  | [], io => io
  | endpoint :: rest, io =>
    if endpoint.Direction = EndpointDirection.In then endpointLoop rest (endpoint.Number, io.2)
    else endpointLoop rest (io.1, endpoint.Number)

/-- The function `getInOutEndpoints`. -/
def getInOutEndpoints (intf : UsbInterface) : Int × Int :=
  endpointLoop intf.Endpoints (0, 0)

/-- The local `sCmdPrefix` of `SendUsbIDToPrinter`. -/
def sCmdPrefix : GoString := [0x1b, 0x23, 0x23, 0x57, 0x38, 0x2c]

/-- The local `sCmdPostfix` of `SendUsbIDToPrinter`. -/
def sCmdPostfix : GoString := [0x0a, 0x00]

/-- The local `sResetCmdP1` of `SendUsbIDToPrinter`. -/
def sResetCmdP1 : GoString :=
  [0x1b, 0x1d, 0x23, 0x2b, 0x43, 0x30, 0x30, 0x30, 0x32, 0x0a, 0x00, 0x1b, 0x1d, 0x23, 0x54, 0x30]

/-- The local `sResetCmdP2` of `SendUsbIDToPrinter`. -/
def sResetCmdP2 : GoString := [0x30, 0x30, 0x30, 0x30, 0x0A, 0x00]

/-- The filter that `SendUsbIDToPrinter` hands to `OpenDevices`. -/
def matchesPath (address bus port : Int) (desc : UsbDevice) : Bool :=
  desc.Address == address && desc.Bus == bus && desc.Port == port

/-- The function `SendUsbIDToPrinter`.  The deferred closes run at every
return, last deferred first; the results of the `Write` calls are dropped, as
in the source. -/
def SendUsbIDToPrinter (h : Host) (usbID : GoString) (address bus port : Int)
    (printRebootMsg : Bool) : Result :=
  let opened := OpenDevices h (matchesPath address bus port)
  let devs := opened.1
  let e0 := [Event.openDevices address bus port]
  if opened.2 then ⟨some Err.usbError, e0 ++ [Event.ctxClose]⟩
  else
    let closes := devs.map (fun _ => Event.devClose) ++ [Event.ctxClose]
    let lenDevs := devs.length
    match devs with
    | [] => ⟨some (Err.goneAway address bus port), e0 ++ closes⟩
    | _ :: _ :: _ => ⟨some (Err.multipleDevices lenDevs address bus port), e0 ++ closes⟩
    | [device] =>
      match device.defaultInterface with
      | none => ⟨some Err.defaultInterfaceFailed, e0 ++ [Event.defaultInterface] ++ closes⟩
      | some intf =>
        let closes := [Event.intfClose, Event.done] ++ closes
        let out := (getInOutEndpoints intf).2
        let e1 := e0 ++ [Event.defaultInterface, Event.outEndpoint out]
        if !intf.outEndpointOk out then ⟨some (Err.outEndpointFailed out), e1 ++ closes⟩
        else
          let e2 := e1 ++
            [Event.write out (sCmdPrefix ++ usbID ++ sCmdPostfix) (intf.writeOk 0),
             Event.sleep 1,
             Event.write out sResetCmdP1 (intf.writeOk 1),
             Event.sleep 1,
             Event.write out sResetCmdP2 (intf.writeOk 2)]
          if printRebootMsg then
            ⟨none, e2 ++
              [Event.sleep 5,
               Event.write out (lit "Please reboot me, my new USBID = " ++ usbID)
                 (intf.writeOk 3),
               Event.write out
                 (starBR ++ starBR ++ starBR ++ starBR ++ starBR ++ starFullCut)
                 (intf.writeOk 4)] ++ closes⟩
          else ⟨none, e2 ++ closes⟩

/-! ## Selection and orchestration -/

/-- The type `Printer`. -/
structure Printer where
  Vendor : Nat
  Product : Nat
  Manufacturer : GoString
  ProductName : GoString
  SerialNumber : GoString
  Description : GoString
  Address : Int
  Speed : GoString
  Bus : Int
  Port : Int
  deriving DecidableEq, Repr

/-- The type `PrinterList`. -/
abbrev PrinterList := List Printer

/-- The method `SetUsbID`. -/
def SetUsbID (h : Host) (p : Printer) (usbID : GoString) (printRebootMsg : Bool) : Result :=
  if p.SerialNumber = usbID then ⟨some (Err.alreadySet usbID), []⟩
  else
    let v := validateUsbID usbID
    if !v.1 then ⟨some (Err.invalidUsbID v.2), []⟩
    else SendUsbIDToPrinter h v.2 p.Address p.Bus p.Port printRebootMsg

/-- The command-line flags of `main`, after `flag.Parse()`. -/
structure Flags where
  fUsbID : GoString
  randomID : Bool
  simulate : Bool
  list : Bool
  address : Int
  bus : Int
  port : Int
  printRebootMsg : Bool

/-- The flags when the command line gives none. -/
def defaultFlags : Flags :=
  ⟨lit "AB123456", false, false, false, -1, -1, -1, false⟩

/-- The local `targetSet` of `main`. -/
def targetSet (f : Flags) : Bool := f.address > -1 && f.bus > -1 && f.port > -1

/-- The condition under which the loop of `main` calls `SetUsbID` on `p`. -/
def selected (f : Flags) (p : Printer) : Bool :=
  (targetSet f && (p.Address == f.address && p.Bus == f.bus && p.Port == f.port)) ||
    !targetSet f

/-- One call of `SetUsbID` made by the loop of `main`. -/
structure Call where
  idx : Nat
  printer : Printer
  usbID : GoString
  result : Result
  deriving DecidableEq, Repr

/-- How the loop of `main` ends: it runs through, or `log.Fatalf` ends the
process at device `idx`. -/
inductive Exit where
  | returned
  | fatal (idx : Nat) (err : Err)
  deriving DecidableEq, Repr

/-- A run of the loop of `main`: how it ends and the calls of `SetUsbID` made,
in order. -/
structure Run where
  exit : Exit
  calls : List Call
  deriving DecidableEq, Repr

/-- The host calls of a run, in order. -/
def Run.events (r : Run) : List Event := r.calls.flatMap (fun c => c.result.events)

/-- The loop `for idx, p := range pl` of `main`, from index `idx` with the
current value of the variable `usbID`.  Console output is not part of the
embedding. -/
def mainLoop (f : Flags) (h : Host) : Nat → PrinterList → GoString → RandSource → Run
  | _, [], _, _ => ⟨Exit.returned, []⟩
  | idx, p :: rest, usbID, rng =>
    if f.list then mainLoop f h (idx + 1) rest usbID rng
    else
      let g := if f.randomID then MakeRandomID rng else (usbID, rng)
      if f.simulate then mainLoop f h (idx + 1) rest g.1 g.2
      else if selected f p then
        let r := SetUsbID h p g.1 f.printRebootMsg
        match r.err with
        | some err => ⟨Exit.fatal idx err, [⟨idx, p, g.1, r⟩]⟩
        | none =>
          let run := mainLoop f h (idx + 1) rest g.1 g.2
          ⟨run.exit, ⟨idx, p, g.1, r⟩ :: run.calls⟩
      else mainLoop f h (idx + 1) rest g.1 g.2

/-- The part of `main` after discovery gave the registry `pl`. -/
def mainAfterDiscover (f : Flags) (h : Host) (rng : RandSource) (pl : PrinterList) : Run :=
  if pl.length > 0 then mainLoop f h 0 pl f.fUsbID rng else ⟨Exit.returned, []⟩

/-! ## Vocabulary of the specification -/

/-- A character of the identifier alphabet: `0-9` (48-57) or `A-Z` (65-90). -/
def isIdChar (r : Nat) : Prop := (48 ≤ r ∧ r ≤ 57) ∨ (65 ≤ r ∧ r ≤ 90)

instance : DecidablePred isIdChar := fun r => by
  unfold isIdChar
  exact inferInstance

/-- The 36-character alphabet `0123456789ABCDEFGHIJKLMNOPQRSTUVWXYZ`. -/
def alphabet : GoString := lit "0123456789ABCDEFGHIJKLMNOPQRSTUVWXYZ"

/-- The number of index values `i` in `[0, len(idChars))` for which
`idChars[i]` is the character `c`. -/
def selectCount (c : Nat) : Nat :=
  ((List.range idChars.length).filter (fun i => idChars.getD i 0 == c)).length

/-- The character that the draw number `i` of the source selects: `idChars[rng i % 46]`. -/
def drawn (rng : RandSource) (i : Nat) : Nat := idChars.getD (rng i % 46) 0

/-- The target triple of the flags equals the triple of the printer. -/
def matchesTarget (f : Flags) (p : Printer) : Bool :=
  p.Bus == f.bus && p.Address == f.address && p.Port == f.port

/-! ## Concrete hosts and registries -/

/-- An interface with one in and one out endpoint on which every call succeeds. -/
def goodInterface : UsbInterface :=
  ⟨[⟨1, EndpointDirection.In⟩, ⟨2, EndpointDirection.Out⟩], fun _ => true, fun _ => true⟩

/-- An interface on which every `Write` fails. -/
def deafInterface : UsbInterface :=
  ⟨[⟨1, EndpointDirection.In⟩, ⟨2, EndpointDirection.Out⟩], fun _ => true, fun _ => false⟩

/-- A printer record at `address`, bus 1, port 1 with the given serial number. -/
def printerAt (address : Int) (serial : GoString) : Printer :=
  ⟨0x519, 3, lit "STAR", lit "TSP100", serial, [], address, lit "full", 1, 1⟩

/-- A host with two healthy devices at addresses 4 and 5 of bus 1, port 1. -/
def twoHost : Host :=
  ⟨[⟨4, 1, 1, some goodInterface⟩, ⟨5, 1, 1, some goodInterface⟩], false⟩

/-- A host with one device, at address 4, on which every `Write` fails. -/
def deafHost : Host := ⟨[⟨4, 1, 1, some deafInterface⟩], false⟩

/-- A host on which two devices answer to address 4, bus 1, port 1. -/
def twinHost : Host :=
  ⟨[⟨4, 1, 1, some goodInterface⟩, ⟨4, 1, 1, some goodInterface⟩], false⟩

/-- Flags that give the identifier `ZZ999999` and the target address 5, bus 1,
port 1. -/
def targetFlags : Flags :=
  ⟨lit "ZZ999999", false, false, false, 5, 1, 1, false⟩

/-- The registry of the scenario: serial numbers `AB123456` and the empty one. -/
def twoPrinters : PrinterList := [printerAt 4 (lit "AB123456"), printerAt 5 []]

/-! ## Lemmas on ranging over a string -/

theorem nextRune_ascii (s0 : Nat) (t : GoString) (h0 : s0 < 0x80) :
    nextRune (s0 :: t) = (s0, 1) := by
  simp [nextRune, h0]

theorem guarded_rune_ge (c : Prop) [Decidable c] (r n : Nat) (h : c → 0x80 ≤ r) :
    0x80 ≤ (if c then (r, n) else (runeError, 1)).1 := by
  by_cases hc : c
  · simpa [hc] using h hc
  · simp [hc, runeError]

theorem decoderune_ge (s : GoString) : 0x80 ≤ (decoderune s).1 := by
  unfold decoderune
  repeat' split
  all_goals first
    | (simp only [runeError]; omega)
    | (apply guarded_rune_ge; intro hc; omega)

theorem nextRune_ge (s0 : Nat) (t : GoString) (h0 : 0x80 ≤ s0) :
    0x80 ≤ (nextRune (s0 :: t)).1 := by
  have hn : ¬ s0 < 0x80 := by omega
  simp only [nextRune, hn, if_false]
  exact decoderune_ge _

theorem rangeFrom_length_le : ∀ (s : GoString) (skip : Nat), (rangeFrom skip s).length ≤ s.length
  | [], skip => by simp [rangeFrom]
  | s0 :: t, 0 => by
    simp only [rangeFrom, List.length_cons]
    have := rangeFrom_length_le t ((nextRune (s0 :: t)).2 - 1)
    omega
  | s0 :: t, skip + 1 => by
    simp only [rangeFrom, List.length_cons]
    have := rangeFrom_length_le t skip
    omega

theorem rangeRunes_ascii : ∀ (s : GoString), (∀ b ∈ s, b < 0x80) → rangeRunes s = s
  | [], _ => by simp [rangeRunes, rangeFrom]
  | s0 :: t, hs => by
    have h0 : s0 < 0x80 := hs s0 (by simp)
    have ht : rangeRunes t = t := rangeRunes_ascii t (fun b hb => hs b (by simp [hb]))
    unfold rangeRunes at ht ⊢
    simp only [rangeFrom, nextRune_ascii s0 t h0]
    simpa using ht

theorem rangeRunes_nonascii : ∀ (s : GoString), (∃ b ∈ s, 0x80 ≤ b) →
    ∃ r ∈ rangeRunes s, 0x80 ≤ r
  | [], hs => by simp at hs
  | s0 :: t, hs => by
    by_cases h0 : s0 < 0x80
    · have ht : ∃ b ∈ t, 0x80 ≤ b := by
        obtain ⟨b, hb, hge⟩ := hs
        rcases List.mem_cons.mp hb with rfl | hb
        · omega
        · exact ⟨b, hb, hge⟩
      obtain ⟨r, hr, hge⟩ := rangeRunes_nonascii t ht
      refine ⟨r, ?_, hge⟩
      unfold rangeRunes at hr ⊢
      simp only [rangeFrom, nextRune_ascii s0 t h0]
      simp [hr]
    · refine ⟨(nextRune (s0 :: t)).1, ?_, nextRune_ge s0 t (by omega)⟩
      simp [rangeRunes, rangeFrom]

theorem validateLoop_eq_false (rs : List Nat) :
    validateLoop rs = false ↔ ∃ r ∈ rs, badRune r = true := by
  induction rs with
  | nil => simp [validateLoop]
  | cons r rs ih =>
    by_cases hr : badRune r = true
    · simp [validateLoop, hr]
    · simp [validateLoop, hr, ih]

theorem badRune_iff (r : Nat) : badRune r = true ↔ ¬ isIdChar r := by
  simp only [badRune, isIdChar, Bool.or_eq_true, Bool.and_eq_true, decide_eq_true_eq]
  omega

theorem rangeRunes_all_ascii (s : GoString) (h : ∀ r ∈ rangeRunes s, r < 0x80) :
    rangeRunes s = s := by
  apply rangeRunes_ascii
  intro b hb
  by_contra hlt
  obtain ⟨r, hr, hge⟩ := rangeRunes_nonascii s ⟨b, hb, by omega⟩
  have := h r hr
  omega

theorem isIdChar_lt (r : Nat) (h : isIdChar r) : r < 0x80 := by
  unfold isIdChar at h
  omega

/-! ## `validateUsbID` -/

/-- Claim C2, as stated, fails at the empty string: it has length at most 8 and
no character outside `0-9A-Z`, `validateUsbID` returns true, and the string is
replaced by `????????`. -/
theorem validateUsbID_empty_replaced :
    ([] : GoString).length ≤ 8 ∧ (∀ r ∈ rangeRunes [], isIdChar r) ∧
      (validateUsbID []).1 = true ∧ (validateUsbID []).2 ≠ [] := by
  refine ⟨by decide, ?_, by decide, by decide⟩
  intro r hr
  simp [rangeRunes, rangeFrom] at hr

/-- Claim C2, amended: for every string of length at most 8 whose characters
are all in `0-9` or `A-Z`, `validateUsbID` returns true; a non-empty string is
left unchanged and the empty string is replaced by `????????`. -/
theorem validateUsbID_accepts (s : GoString) (hlen : s.length ≤ 8)
    (hch : ∀ r ∈ rangeRunes s, isIdChar r) :
    validateUsbID s = (true, if s = [] then lit "????????" else s) := by
  by_cases hs : s = []
  · subst hs
    decide
  · have hl : s.length ≠ 0 := fun h0 => hs (List.length_eq_zero.mp h0)
    have hgt : ¬ s.length > 8 := by omega
    have hloop : validateLoop (rangeRunes s) = true := by
      cases hv : validateLoop (rangeRunes s) with
      | true => rfl
      | false =>
        obtain ⟨r, hr, hbad⟩ := (validateLoop_eq_false _).mp hv
        exact absurd (hch r hr) ((badRune_iff r).mp hbad)
    simp [validateUsbID, hl, hgt, hloop, hs]

theorem validateUsbID_accepts_witness :
    validateUsbID (lit "AB123456") = (true, lit "AB123456") :=
  validateUsbID_accepts (lit "AB123456") (by decide) (by decide)

theorem validateUsbID_false_iff (s : GoString) :
    (validateUsbID s).1 = false ↔ (8 < s.length ∨ ∃ r ∈ rangeRunes s, ¬ isIdChar r) := by
  by_cases hs : s.length = 0
  · have : s = [] := List.length_eq_zero.mp hs
    subst this
    simp [validateUsbID, rangeRunes, rangeFrom]
  · by_cases hgt : s.length > 8
    · simp [validateUsbID, hs, hgt]
    · have hle : ¬ 8 < s.length := hgt
      simp only [validateUsbID, hs, hgt, if_false, validateLoop_eq_false, badRune_iff, hle,
        false_or]

/-- Claim C3: `validateUsbID` returns false if and only if the string is longer
than 8 or contains a character outside `0-9` (48-57) and `A-Z` (65-90), with
the length counted in bytes (first part) or in characters (second part); a
string that contains a lowercase letter, a non-ASCII character or a byte that
is not ASCII is rejected, and the empty string is not. -/
theorem validateUsbID_rejects_iff (s : GoString) :
    ((validateUsbID s).1 = false ↔ (8 < s.length ∨ ∃ r ∈ rangeRunes s, ¬ isIdChar r)) ∧
    ((validateUsbID s).1 = false ↔
      (8 < (rangeRunes s).length ∨ ∃ r ∈ rangeRunes s, ¬ isIdChar r)) ∧
    ((∃ r ∈ rangeRunes s, (97 ≤ r ∧ r ≤ 122) ∨ 0x80 ≤ r) → (validateUsbID s).1 = false) ∧
    ((∃ b ∈ s, 0x80 ≤ b) → (validateUsbID s).1 = false) ∧
    (validateUsbID []).1 = true := by
  have hmain := validateUsbID_false_iff s
  have hrune : (∃ r ∈ rangeRunes s, (97 ≤ r ∧ r ≤ 122) ∨ 0x80 ≤ r) →
      (validateUsbID s).1 = false := by
    rintro ⟨r, hr, hout⟩
    refine hmain.mpr (Or.inr ⟨r, hr, ?_⟩)
    unfold isIdChar
    omega
  refine ⟨hmain, ?_, hrune, ?_, by decide⟩
  · rw [hmain]
    constructor
    · rintro (hlen | hbad)
      · by_cases hall : ∀ r ∈ rangeRunes s, isIdChar r
        · left
          rw [rangeRunes_all_ascii s (fun r hr => isIdChar_lt r (hall r hr))]
          exact hlen
        · right
          push_neg at hall
          exact hall
      · exact Or.inr hbad
    · rintro (hlen | hbad)
      · left
        have := rangeFrom_length_le s 0
        unfold rangeRunes at hlen
        omega
      · exact Or.inr hbad
  · intro hb
    obtain ⟨r, hr, hge⟩ := rangeRunes_nonascii s hb
    exact hrune ⟨r, hr, Or.inr hge⟩

theorem validateUsbID_rejects_iff_witness :
    (validateUsbID (lit "Ab12")).1 = false ∧ (validateUsbID [0x41, 0xC3, 0xA9]).1 = false :=
  ⟨(validateUsbID_rejects_iff (lit "Ab12")).2.2.1 ⟨98, by decide, by decide⟩,
   (validateUsbID_rejects_iff [0x41, 0xC3, 0xA9]).2.2.2.1 ⟨0xC3, by decide, by decide⟩⟩

/-! ## `MakeRandomID` -/

theorem idChars_length : idChars.length = 46 := by decide

theorem idChars_entry : ∀ i, i < 46 →
    stringOfByte (idChars.getD i 0) = [idChars.getD i 0] ∧ isIdChar (idChars.getD i 0) := by
  decide

theorem makeRandomLoop_eq : ∀ (n : Nat) (newID : GoString) (rng : RandSource),
    (makeRandomLoop n newID rng).1 = newID ++ (List.range n).map (drawn rng)
  | 0, newID, rng => by simp [makeRandomLoop]
  | n + 1, newID, rng => by
    have hstr := (idChars_entry (rng 0 % 46) (Nat.mod_lt _ (by decide))).1
    simp only [makeRandomLoop, Intn, idChars_length, hstr]
    rw [makeRandomLoop_eq n, List.range_succ_eq_map]
    simp [drawn, Function.comp_def]

theorem MakeRandomID_eq (rng : RandSource) :
    (MakeRandomID rng).1 = (List.range 8).map (drawn rng) := by
  simp [MakeRandomID, idMaxLength, makeRandomLoop_eq]

theorem drawn_isIdChar (rng : RandSource) (i : Nat) : isIdChar (drawn rng i) :=
  (idChars_entry (rng i % 46) (Nat.mod_lt _ (by decide))).2

/-- Claim C9: whatever the random source draws, `MakeRandomID` returns a
string of exactly 8 bytes that are 8 characters (ranging over it yields the
bytes themselves), each of them in `0-9` or `A-Z`. -/
theorem MakeRandomID_shape (rng : RandSource) :
    (MakeRandomID rng).1.length = 8 ∧
    rangeRunes (MakeRandomID rng).1 = (MakeRandomID rng).1 ∧
    (rangeRunes (MakeRandomID rng).1).length = 8 ∧
    ∀ r ∈ rangeRunes (MakeRandomID rng).1, isIdChar r := by
  have hall : ∀ b ∈ (MakeRandomID rng).1, isIdChar b := by
    intro b hb
    rw [MakeRandomID_eq] at hb
    obtain ⟨i, _, rfl⟩ := List.mem_map.mp hb
    exact drawn_isIdChar rng i
  have hlen : (MakeRandomID rng).1.length = 8 := by
    rw [MakeRandomID_eq]
    simp
  have hrunes : rangeRunes (MakeRandomID rng).1 = (MakeRandomID rng).1 :=
    rangeRunes_ascii _ (fun b hb => isIdChar_lt b (hall b hb))
  refine ⟨hlen, hrunes, ?_, ?_⟩
  · rw [hrunes]
    exact hlen
  · rw [hrunes]
    exact hall

/-- Claim C10, as stated, fails: the 36 characters of the alphabet are not
selected by the same number of index values, since `0` is selected by two of
the 46 index values and `A` by one. -/
theorem selectCount_not_uniform :
    ¬ ∃ k, ∀ c ∈ alphabet, selectCount c = k := by
  rintro ⟨k, hk⟩
  have h0 : selectCount 48 = k := hk 48 (by decide)
  have hA : selectCount 65 = k := hk 65 (by decide)
  have e0 : selectCount 48 = 2 := by decide
  have eA : selectCount 65 = 1 := by decide
  omega

theorem selectCount_digit : ∀ c, c < 58 → 48 ≤ c → selectCount c = 2 := by
  decide

theorem selectCount_letter : ∀ c, c < 91 → 65 ≤ c → selectCount c = 1 := by
  decide

/-- Claim C10, amended: the character at each of the 8 positions of the string
returned by `MakeRandomID` is `idChars[i]` for the index `i` drawn from 0 to
45 at that position; `idChars` has 46 entries, each digit `0-9` is selected by
exactly two index values and each letter `A-Z` by exactly one, so that with a
uniform index a digit has probability 2/46 and a letter 1/46. -/
theorem MakeRandomID_distribution (rng : RandSource) :
    idChars.length = 46 ∧
    (MakeRandomID rng).1 = (List.range 8).map (fun i => idChars.getD (rng i % 46) 0) ∧
    (∀ c, 48 ≤ c ∧ c ≤ 57 → selectCount c = 2) ∧
    (∀ c, 65 ≤ c ∧ c ≤ 90 → selectCount c = 1) ∧
    (∀ c, 48 ≤ c ∧ c ≤ 57 → (selectCount c : ℚ) / idChars.length = 2 / 46) ∧
    (∀ c, 65 ≤ c ∧ c ≤ 90 → (selectCount c : ℚ) / idChars.length = 1 / 46) := by
  refine ⟨idChars_length, MakeRandomID_eq rng, ?_, ?_, ?_, ?_⟩
  · intro c hc
    exact selectCount_digit c (by omega) hc.1
  · intro c hc
    exact selectCount_letter c (by omega) hc.1
  · intro c hc
    rw [selectCount_digit c (by omega) hc.1, idChars_length]
    norm_num
  · intro c hc
    rw [selectCount_letter c (by omega) hc.1, idChars_length]
    norm_num

theorem MakeRandomID_distribution_witness :
    selectCount 53 = 2 ∧ selectCount 77 = 1 :=
  ⟨(MakeRandomID_distribution (fun k => 7 * k + 3)).2.2.1 53 (by decide),
   (MakeRandomID_distribution (fun k => 7 * k + 3)).2.2.2.1 77 (by decide)⟩

/-! ## `SendUsbIDToPrinter` -/

theorem SendUsbIDToPrinter_resolved (h : Host) (usbID : GoString) (address bus port : Int)
    (printRebootMsg : Bool) (device : UsbDevice) (intf : UsbInterface)
    (hopen : h.openErr = false)
    (hone : h.devices.filter (matchesPath address bus port) = [device])
    (hclaim : device.defaultInterface = some intf)
    (hout : intf.outEndpointOk (getInOutEndpoints intf).2 = true) :
    SendUsbIDToPrinter h usbID address bus port printRebootMsg =
      ⟨none,
        [Event.openDevices address bus port, Event.defaultInterface,
          Event.outEndpoint (getInOutEndpoints intf).2,
          Event.write (getInOutEndpoints intf).2 (sCmdPrefix ++ usbID ++ sCmdPostfix)
            (intf.writeOk 0),
          Event.sleep 1,
          Event.write (getInOutEndpoints intf).2 sResetCmdP1 (intf.writeOk 1),
          Event.sleep 1,
          Event.write (getInOutEndpoints intf).2 sResetCmdP2 (intf.writeOk 2)] ++
        (if printRebootMsg then
          [Event.sleep 5,
            Event.write (getInOutEndpoints intf).2
              (lit "Please reboot me, my new USBID = " ++ usbID) (intf.writeOk 3),
            Event.write (getInOutEndpoints intf).2
              (starBR ++ starBR ++ starBR ++ starBR ++ starBR ++ starFullCut) (intf.writeOk 4)]
          else []) ++
        [Event.intfClose, Event.done, Event.devClose, Event.ctxClose]⟩ := by
  cases printRebootMsg <;>
    simp [SendUsbIDToPrinter, OpenDevices, hopen, hone, hclaim, hout]

/-- Claim C1: when exactly one attached device matches (address, bus, port),
the re-open reports no error and the interface claim and the opening of the
out endpoint succeed, the writes of `SendUsbIDToPrinter` are, in this order
and nothing else: the bytes `1B 23 23 57 38 2C`, then `usbID`, then `0A 00`;
the commit part 1 frame; the commit part 2 frame; and, only when
`printRebootMsg` is true, the prompt text followed by `usbID`, then five times
`starBR` followed by `starFullCut` in one write. -/
theorem SendUsbIDToPrinter_writes (h : Host) (usbID : GoString) (address bus port : Int)
    (printRebootMsg : Bool) (device : UsbDevice) (intf : UsbInterface)
    (hopen : h.openErr = false)
    (hone : h.devices.filter (matchesPath address bus port) = [device])
    (hclaim : device.defaultInterface = some intf)
    (hout : intf.outEndpointOk (getInOutEndpoints intf).2 = true) :
    writesOf (SendUsbIDToPrinter h usbID address bus port printRebootMsg).events =
      [[0x1B, 0x23, 0x23, 0x57, 0x38, 0x2C] ++ usbID ++ [0x0A, 0x00],
        sResetCmdP1, sResetCmdP2] ++
      (if printRebootMsg then
        [lit "Please reboot me, my new USBID = " ++ usbID,
          (List.replicate 5 starBR).flatten ++ starFullCut]
        else []) := by
  rw [SendUsbIDToPrinter_resolved h usbID address bus port printRebootMsg device intf hopen hone
    hclaim hout]
  cases printRebootMsg <;>
    simp [writesOf, sCmdPrefix, sCmdPostfix, List.replicate, starBR, starFullCut]

theorem SendUsbIDToPrinter_writes_witness :
    writesOf (SendUsbIDToPrinter twoHost (lit "AB123456") 5 1 1 true).events =
      [[0x1B, 0x23, 0x23, 0x57, 0x38, 0x2C] ++ lit "AB123456" ++ [0x0A, 0x00],
        sResetCmdP1, sResetCmdP2] ++
      (if true then
        [lit "Please reboot me, my new USBID = " ++ lit "AB123456",
          (List.replicate 5 starBR).flatten ++ starFullCut]
        else []) :=
  SendUsbIDToPrinter_writes twoHost (lit "AB123456") 5 1 1 true
    ⟨5, 1, 1, some goodInterface⟩ goodInterface rfl rfl rfl rfl

theorem writesOf_devCloses (devs : List UsbDevice) :
    writesOf (devs.map (fun _ => Event.devClose) ++ [Event.ctxClose]) = [] := by
  induction devs with
  | nil => simp [writesOf]
  | cons d ds ih => simpa [writesOf] using ih

/-- Claim C6: when the devices that match (address, bus, port) are none or
more than one, `SendUsbIDToPrinter` returns an error and makes no write; when
the re-open itself reports no error, the error is that the device has gone
away (no match) or that multiple devices match (more than one). -/
theorem SendUsbIDToPrinter_unresolved (h : Host) (usbID : GoString) (address bus port : Int)
    (printRebootMsg : Bool)
    (hn : (h.devices.filter (matchesPath address bus port)).length = 0 ∨
      1 < (h.devices.filter (matchesPath address bus port)).length) :
    (SendUsbIDToPrinter h usbID address bus port printRebootMsg).err ≠ none ∧
    writesOf (SendUsbIDToPrinter h usbID address bus port printRebootMsg).events = [] ∧
    (h.openErr = false →
      (h.devices.filter (matchesPath address bus port)).length = 0 →
      (SendUsbIDToPrinter h usbID address bus port printRebootMsg).err =
        some (Err.goneAway address bus port)) ∧
    (h.openErr = false →
      1 < (h.devices.filter (matchesPath address bus port)).length →
      (SendUsbIDToPrinter h usbID address bus port printRebootMsg).err =
        some (Err.multipleDevices (h.devices.filter (matchesPath address bus port)).length
          address bus port)) := by
  cases herr : h.openErr with
  | true => simp [SendUsbIDToPrinter, OpenDevices, herr, writesOf]
  | false =>
    match hd : h.devices.filter (matchesPath address bus port) with
    | [] => simp [SendUsbIDToPrinter, OpenDevices, herr, hd, writesOf]
    | [d] => simp [hd] at hn
    | d1 :: d2 :: ds =>
      have hw := writesOf_devCloses ds
      have hmap : ds.map (fun _ => Event.devClose) = List.replicate ds.length Event.devClose := by
        simp
      rw [hmap] at hw
      simp [SendUsbIDToPrinter, OpenDevices, herr, hd, writesOf]
      exact hw

theorem SendUsbIDToPrinter_unresolved_witness :
    (SendUsbIDToPrinter twinHost (lit "AB123456") 4 1 1 true).err =
        some (Err.multipleDevices 2 4 1 1) ∧
      (SendUsbIDToPrinter twoHost (lit "AB123456") 9 1 1 true).err =
        some (Err.goneAway 9 1 1) ∧
      writesOf (SendUsbIDToPrinter twinHost (lit "AB123456") 4 1 1 true).events = [] :=
  ⟨(SendUsbIDToPrinter_unresolved twinHost (lit "AB123456") 4 1 1 true
      (Or.inr (by decide))).2.2.2 rfl (by decide),
   (SendUsbIDToPrinter_unresolved twoHost (lit "AB123456") 9 1 1 true
      (Or.inl (by decide))).2.2.1 rfl (by decide),
   (SendUsbIDToPrinter_unresolved twinHost (lit "AB123456") 4 1 1 true
      (Or.inr (by decide))).2.1⟩

/-- Claim C7, as stated, fails: on a uniquely resolved device on which every
`Write` fails, `SendUsbIDToPrinter` returns no error, and after the failed
first write it still makes the two later writes. -/
theorem SendUsbIDToPrinter_failed_write_ignored :
    (SendUsbIDToPrinter deafHost (lit "AB123456") 4 1 1 false).err = none ∧
      writeResults (SendUsbIDToPrinter deafHost (lit "AB123456") 4 1 1 false).events =
        [false, false, false] ∧
      writesOf (SendUsbIDToPrinter deafHost (lit "AB123456") 4 1 1 false).events =
        [sCmdPrefix ++ lit "AB123456" ++ sCmdPostfix, sResetCmdP1, sResetCmdP2] := by
  decide

/-- Claim C7, amended: on a uniquely resolved device whose interface claim and
out-endpoint open succeed, `SendUsbIDToPrinter` drops the result of every
endpoint write: whichever writes fail, it makes all its writes (three, or five
with the reboot prompt), the `k`-th with the outcome the endpoint gives it,
and returns no error. -/
theorem SendUsbIDToPrinter_write_results (h : Host) (usbID : GoString)
    (address bus port : Int) (printRebootMsg : Bool) (device : UsbDevice)
    (intf : UsbInterface)
    (hopen : h.openErr = false)
    (hone : h.devices.filter (matchesPath address bus port) = [device])
    (hclaim : device.defaultInterface = some intf)
    (hout : intf.outEndpointOk (getInOutEndpoints intf).2 = true) :
    (SendUsbIDToPrinter h usbID address bus port printRebootMsg).err = none ∧
    writeResults (SendUsbIDToPrinter h usbID address bus port printRebootMsg).events =
      (List.range (if printRebootMsg then 5 else 3)).map intf.writeOk := by
  rw [SendUsbIDToPrinter_resolved h usbID address bus port printRebootMsg device intf hopen hone
    hclaim hout]
  cases printRebootMsg <;> simp [writeResults, List.range, List.range.loop]

theorem SendUsbIDToPrinter_write_results_witness :
    (SendUsbIDToPrinter deafHost (lit "AB123456") 4 1 1 true).err = none ∧
    writeResults (SendUsbIDToPrinter deafHost (lit "AB123456") 4 1 1 true).events =
      (List.range (if true then 5 else 3)).map deafInterface.writeOk :=
  SendUsbIDToPrinter_write_results deafHost (lit "AB123456") 4 1 1 true
    ⟨4, 1, 1, some deafInterface⟩ deafInterface rfl rfl rfl rfl

theorem SendUsbIDToPrinter_opens_first (h : Host) (usbID : GoString) (address bus port : Int)
    (printRebootMsg : Bool) :
    (SendUsbIDToPrinter h usbID address bus port printRebootMsg).events.head? =
      some (Event.openDevices address bus port) := by
  cases herr : h.openErr with
  | true => simp [SendUsbIDToPrinter, OpenDevices, herr]
  | false =>
    match hd : h.devices.filter (matchesPath address bus port) with
    | [] => simp [SendUsbIDToPrinter, OpenDevices, herr, hd]
    | d1 :: d2 :: ds => simp [SendUsbIDToPrinter, OpenDevices, herr, hd]
    | [d] =>
      cases hc : d.defaultInterface with
      | none => simp [SendUsbIDToPrinter, OpenDevices, herr, hd, hc]
      | some intf =>
        cases ho : intf.outEndpointOk (getInOutEndpoints intf).2 <;> cases printRebootMsg <;>
          simp [SendUsbIDToPrinter, OpenDevices, herr, hd, hc, ho]

/-! ## `SetUsbID` -/

/-- Claim C4: when the candidate identifier equals the serial number recorded
for the printer (compared as strings, before any validation), `SetUsbID`
returns the already-set error and makes no host call at all: no write, and no
call of `SendUsbIDToPrinter`, every call of which opens the devices first. -/
theorem SetUsbID_already_set (h : Host) (p : Printer) (usbID : GoString)
    (printRebootMsg : Bool) (heq : p.SerialNumber = usbID) :
    (SetUsbID h p usbID printRebootMsg).err = some (Err.alreadySet usbID) ∧
    (SetUsbID h p usbID printRebootMsg).events = [] ∧
    writesOf (SetUsbID h p usbID printRebootMsg).events = [] ∧
    ∀ (id : GoString) (address bus port : Int) (msg : Bool),
      (SendUsbIDToPrinter h id address bus port msg).events.head? =
        some (Event.openDevices address bus port) := by
  refine ⟨by simp [SetUsbID, heq], by simp [SetUsbID, heq], by simp [SetUsbID, heq, writesOf], ?_⟩
  intro id address bus port msg
  exact SendUsbIDToPrinter_opens_first h id address bus port msg

theorem SetUsbID_already_set_witness :
    (SetUsbID twoHost (printerAt 4 (lit "ab")) (lit "ab") false).err =
        some (Err.alreadySet (lit "ab")) ∧
      (SetUsbID twoHost (printerAt 4 (lit "ab")) (lit "ab") false).events = [] :=
  ⟨(SetUsbID_already_set twoHost (printerAt 4 (lit "ab")) (lit "ab") false rfl).1,
   (SetUsbID_already_set twoHost (printerAt 4 (lit "ab")) (lit "ab") false rfl).2.1⟩

/-! ## The per-device loop of `main` -/

theorem mainAfterDiscover_eq (f : Flags) (h : Host) (rng : RandSource) (pl : PrinterList) :
    mainAfterDiscover f h rng pl = mainLoop f h 0 pl f.fUsbID rng := by
  cases pl with
  | nil => simp [mainAfterDiscover, mainLoop]
  | cons p rest => simp [mainAfterDiscover]

theorem mainLoop_calls (f : Flags) (h : Host) (hlist : f.list = false)
    (hsim : f.simulate = false) :
    ∀ (pl : PrinterList) (idx : Nat) (usbID : GoString) (rng : RandSource),
      (∃ rest, (pl.enumFrom idx).filter (fun ip => selected f ip.2) =
        (mainLoop f h idx pl usbID rng).calls.map (fun c => (c.idx, c.printer)) ++ rest) ∧
      ((∀ c ∈ (mainLoop f h idx pl usbID rng).calls, c.result.err = none) →
        (mainLoop f h idx pl usbID rng).exit = Exit.returned ∧
        (mainLoop f h idx pl usbID rng).calls.map (fun c => (c.idx, c.printer)) =
          (pl.enumFrom idx).filter (fun ip => selected f ip.2))
  | [], idx, usbID, rng => by simp [mainLoop]
  | p :: rest, idx, usbID, rng => by
    have ih := mainLoop_calls f h hlist hsim rest (idx + 1)
      (if f.randomID then MakeRandomID rng else (usbID, rng)).1
      (if f.randomID then MakeRandomID rng else (usbID, rng)).2
    by_cases hsel : selected f p = true
    · cases herr : (SetUsbID h p (if f.randomID then MakeRandomID rng else (usbID, rng)).1
          f.printRebootMsg).err with
      | some e =>
        simp only [mainLoop, hlist, hsim, hsel, herr, List.enumFrom_cons]
        simp [hsel, herr]
      | none =>
        simp only [mainLoop, hlist, hsim, hsel, herr, List.enumFrom_cons]
        obtain ⟨⟨tail, htail⟩, hall⟩ := ih
        constructor
        · exact ⟨tail, by simp [hsel, htail]⟩
        · intro hok
          have hok2 := hall (fun c hc => hok c (by simp [hc]))
          simp [hsel, hok2.1, hok2.2]
    · have hsel2 : selected f p = false := by simpa using hsel
      simp only [mainLoop, hlist, hsim, hsel2, List.enumFrom_cons]
      simpa [hsel2] using ih

theorem mainLoop_fatal (f : Flags) (h : Host) :
    ∀ (pl : PrinterList) (idx : Nat) (usbID : GoString) (rng : RandSource),
      ∀ c ∈ (mainLoop f h idx pl usbID rng).calls, idx ≤ c.idx ∧
        ∀ e, c.result.err = some e →
          (mainLoop f h idx pl usbID rng).exit = Exit.fatal c.idx e ∧
          ∀ c2 ∈ (mainLoop f h idx pl usbID rng).calls, c2.idx ≤ c.idx
  | [], idx, usbID, rng => by simp [mainLoop]
  | p :: rest, idx, usbID, rng => by
    have ih := mainLoop_fatal f h rest (idx + 1)
    have step : ∀ (u : GoString) (r : RandSource),
        ∀ c ∈ (mainLoop f h (idx + 1) rest u r).calls, idx ≤ c.idx ∧
          ∀ e, c.result.err = some e →
            (mainLoop f h (idx + 1) rest u r).exit = Exit.fatal c.idx e ∧
            ∀ c2 ∈ (mainLoop f h (idx + 1) rest u r).calls, c2.idx ≤ c.idx := by
      intro u r c hc
      obtain ⟨hle, hrest⟩ := ih u r c hc
      exact ⟨by omega, hrest⟩
    by_cases hlist : f.list = true
    · simp only [mainLoop, hlist, if_true]
      exact step _ _
    · by_cases hsim : f.simulate = true
      · simp only [mainLoop, hlist, hsim, if_true, if_false]
        exact step _ _
      · by_cases hsel : selected f p = true
        · cases herr : (SetUsbID h p (if f.randomID then MakeRandomID rng else (usbID, rng)).1
              f.printRebootMsg).err with
          | some e =>
            simp only [mainLoop, hlist, hsim, hsel, herr, if_true, if_false]
            intro c hc
            replace hc : c = _ := List.mem_singleton.mp hc
            subst hc
            refine ⟨le_refl _, ?_⟩
            intro e2 he2
            simp only [herr, Option.some.injEq] at he2
            subst he2
            simp
          | none =>
            simp only [mainLoop, hlist, hsim, hsel, herr, if_true, if_false]
            intro c hc
            rcases List.mem_cons.mp hc with rfl | hc
            · refine ⟨le_refl _, ?_⟩
              intro e2 he2
              simp [herr] at he2
            · obtain ⟨hle, hrest⟩ := ih _ _ c hc
              refine ⟨by omega, ?_⟩
              intro e2 he2
              obtain ⟨hexit, hmax⟩ := hrest e2 he2
              refine ⟨hexit, ?_⟩
              intro c2 hc2
              rcases List.mem_cons.mp hc2 with rfl | hc2
              · simp only
                omega
              · exact hmax c2 hc2
        · simp only [mainLoop, hlist, hsim, hsel, if_false]
          exact step _ _

theorem selected_of_targetSet (f : Flags) (p : Printer) (ht : targetSet f = true) :
    selected f p = matchesTarget f p := by
  simp only [selected, matchesTarget, ht]
  cases p.Address == f.address <;> cases p.Bus == f.bus <;> cases p.Port == f.port <;> rfl

theorem selected_of_not_targetSet (f : Flags) (p : Printer) (ht : targetSet f = false) :
    selected f p = true := by
  simp [selected, ht]

/-- Claim C5: with list-only and simulate modes off, (1) when a target triple
is active and each call of `SetUsbID` that is made succeeds, the devices on
which `SetUsbID` is called are, in registry order, exactly those whose (bus,
address, port) equal the target triple, and the loop runs through; (2) when a
target triple is active and no device matches, `SetUsbID` is called on no
device and the loop runs through without error; (3) when no target triple is
active and each call that is made succeeds, `SetUsbID` is called on every
device.  The loop makes host calls only inside `SetUsbID`, so a device on
which it is not called is left untouched. -/
theorem main_selection (f : Flags) (h : Host) (rng : RandSource) (pl : PrinterList)
    (hlist : f.list = false) (hsim : f.simulate = false) :
    (targetSet f = true →
      (∀ c ∈ (mainAfterDiscover f h rng pl).calls, c.result.err = none) →
      (mainAfterDiscover f h rng pl).calls.map (fun c => (c.idx, c.printer)) =
          pl.enum.filter (fun ip => matchesTarget f ip.2) ∧
        (mainAfterDiscover f h rng pl).exit = Exit.returned) ∧
    (targetSet f = true → (∀ p ∈ pl, matchesTarget f p = false) →
      (mainAfterDiscover f h rng pl).calls = [] ∧
        (mainAfterDiscover f h rng pl).exit = Exit.returned) ∧
    (targetSet f = false →
      (∀ c ∈ (mainAfterDiscover f h rng pl).calls, c.result.err = none) →
      (mainAfterDiscover f h rng pl).calls.map (fun c => (c.idx, c.printer)) = pl.enum ∧
        (mainAfterDiscover f h rng pl).exit = Exit.returned) := by
  rw [mainAfterDiscover_eq]
  obtain ⟨⟨tail, htail⟩, hall⟩ := mainLoop_calls f h hlist hsim pl 0 f.fUsbID rng
  refine ⟨?_, ?_, ?_⟩
  · intro ht hok
    obtain ⟨hexit, hcalls⟩ := hall hok
    refine ⟨?_, hexit⟩
    rw [hcalls, List.enum]
    exact List.filter_congr (fun ip _ => selected_of_targetSet f ip.2 ht)
  · intro ht hnone
    have hfilter : (pl.enumFrom 0).filter (fun ip => selected f ip.2) = [] := by
      rw [List.filter_eq_nil_iff]
      intro ip hip
      have hmem : ip.2 ∈ pl := List.snd_mem_of_mem_enumFrom hip
      simp [selected_of_targetSet f ip.2 ht, hnone ip.2 hmem]
    rw [hfilter] at htail
    have hnil : (mainLoop f h 0 pl f.fUsbID rng).calls = [] := by
      have := (List.append_eq_nil.mp htail.symm).1
      simpa using this
    refine ⟨hnil, ?_⟩
    exact (hall (by simp [hnil])).1
  · intro ht hok
    obtain ⟨hexit, hcalls⟩ := hall hok
    refine ⟨?_, hexit⟩
    rw [hcalls, List.enum]
    simp [selected_of_not_targetSet f _ ht]

theorem main_selection_witness :
    ((mainAfterDiscover targetFlags twoHost (fun _ => 0) twoPrinters).calls.map
        (fun c => (c.idx, c.printer)) =
      twoPrinters.enum.filter (fun ip => matchesTarget targetFlags ip.2) ∧
    (mainAfterDiscover targetFlags twoHost (fun _ => 0) twoPrinters).exit = Exit.returned) ∧
    ((mainAfterDiscover targetFlags twoHost (fun _ => 0) [printerAt 4 []]).calls = [] ∧
    (mainAfterDiscover targetFlags twoHost (fun _ => 0) [printerAt 4 []]).exit =
      Exit.returned) ∧
    ((mainAfterDiscover defaultFlags twoHost (fun _ => 0) [printerAt 5 [], printerAt 4 []]).calls.map
        (fun c => (c.idx, c.printer)) = [printerAt 5 [], printerAt 4 []].enum ∧
    (mainAfterDiscover defaultFlags twoHost (fun _ => 0) [printerAt 5 [], printerAt 4 []]).exit =
      Exit.returned) :=
  ⟨(main_selection targetFlags twoHost (fun _ => 0) twoPrinters rfl rfl).1 (by decide)
    (by decide),
   (main_selection targetFlags twoHost (fun _ => 0) [printerAt 4 []] rfl rfl).2.1 (by decide)
    (by decide),
   (main_selection defaultFlags twoHost (fun _ => 0) [printerAt 5 [], printerAt 4 []] rfl
    rfl).2.2 (by decide) (by decide)⟩

/-- Claim C8, as stated, fails in its own scenario: with the registry of serial
numbers `AB123456` and the empty one, no selector and candidate `AB123456`,
the first device yields the already-set error, `log.Fatalf` ends the process
there, and `SetUsbID` is never called on the second device. -/
theorem main_scenario_stops :
    (mainAfterDiscover defaultFlags twoHost (fun _ => 0) twoPrinters).exit =
        Exit.fatal 0 (Err.alreadySet (lit "AB123456")) ∧
      (mainAfterDiscover defaultFlags twoHost (fun _ => 0) twoPrinters).calls.map
        (fun c => c.idx) = [0] ∧
      ¬ (∃ c ∈ (mainAfterDiscover defaultFlags twoHost (fun _ => 0) twoPrinters).calls,
        c.idx = 1) ∧
      (mainAfterDiscover defaultFlags twoHost (fun _ => 0) twoPrinters).events = [] := by
  decide

/-- Claim C8, amended: in the per-device loop of `main`, when the call of
`SetUsbID` on a device returns an error (for instance the already-set error),
the error is logged with `log.Fatalf` and the process ends at that device:
`SetUsbID` is called on no later device of the registry. -/
theorem main_stops_at_first_error (f : Flags) (h : Host) (rng : RandSource)
    (pl : PrinterList) (c : Call) (e : Err)
    (hc : c ∈ (mainAfterDiscover f h rng pl).calls) (he : c.result.err = some e) :
    (mainAfterDiscover f h rng pl).exit = Exit.fatal c.idx e ∧
    ∀ c2 ∈ (mainAfterDiscover f h rng pl).calls, c2.idx ≤ c.idx := by
  rw [mainAfterDiscover_eq] at hc ⊢
  exact (mainLoop_fatal f h pl 0 f.fUsbID rng c hc).2 e he

theorem main_stops_at_first_error_witness :
    (mainAfterDiscover defaultFlags twoHost (fun _ => 0) twoPrinters).exit =
        Exit.fatal 0 (Err.alreadySet (lit "AB123456")) ∧
      ∀ c2 ∈ (mainAfterDiscover defaultFlags twoHost (fun _ => 0) twoPrinters).calls,
        c2.idx ≤ 0 :=
  main_stops_at_first_error defaultFlags twoHost (fun _ => 0) twoPrinters
    ⟨0, printerAt 4 (lit "AB123456"), lit "AB123456",
      ⟨some (Err.alreadySet (lit "AB123456")), []⟩⟩
    (Err.alreadySet (lit "AB123456")) (by decide) rfl

end GoStar
